import Mathlib

/-!
Shallow embedding of the signal execution engine in
scripts/trade_execution_logic.py.

Conventions of the embedding:
* Python floats are modelled as exact rationals.
* Remote exchange calls are modelled by an explicit gateway environment;
  every call site that can raise a Python exception returns
  an Except value, and an exception propagates exactly where the source
  has no try/except around the call.
* The SQLite trade_signals table is a list of Signal records; the two
  UPDATE statements are modelled as pointwise maps over that list.
* Order placements performed through the gateway are additionally
  recorded in a trace, so that theorems can speak about which orders a
  handler submitted.
-/

unseal Rat.mul Rat.add Rat.sub Rat.inv

/-- A Python exception value, identified by its message. -/
structure Exn where
  msg : String
deriving DecidableEq, Repr

/-- One entry of the statuses list of an order-placement acknowledgement:
the source inspects it for the keys error, filled and resting
(the resting entry carrying the oid). -/
structure FirstStatus where
  hasError : Bool
  hasFilled : Bool
  resting : Option Nat
deriving DecidableEq, Repr

/-- The acknowledgement of exchange.order: either status err, or a
statuses list under response.data. -/
structure PlaceAck where
  isErr : Bool
  statuses : List FirstStatus
deriving DecidableEq, Repr

/-- Shape of the info.open_orders response: a list of orders (modelled by
their oids), an error-wrapped dict, or some other dict shape. -/
inductive OpenOrdersResp where
  | lst (oids : List Nat)
  | errDict
  | otherDict
deriving DecidableEq, Repr

/-- Shape of the info.user_fills response, as for OpenOrdersResp. -/
inductive FillsResp where
  | lst (oids : List Nat)
  | errDict
  | otherShape
deriving DecidableEq, Repr

/-- The dict returned by place_limit_order_with_chase_openorders:
top-level status, response.data.statuses, and the optional
response.data.oid present in the resting return. -/
structure ChaseResult where
  status : String
  statuses : List String
  oid : Option Nat
deriving DecidableEq, Repr

/-- Gateway behaviour visible to one invocation of the chase function.
Per-attempt responses are indexed by the attempt counter of the polling
loop; each field models one remote call site and may raise. -/
structure ChaseGateway where
  oldPos : Except Exn ℚ
  placeResp : Except Exn PlaceAck
  openOrders : Nat → Except Exn OpenOrdersResp
  allMids : Nat → Except Exn (Option ℚ)
  modifyResp : Nat → Except Exn Bool
  userFills : Nat → Except Exn FillsResp
  newPos : Nat → Except Exn ℚ
  finalPos : Except Exn ℚ

/-- Python round to integer: round-half-to-even on rationals (written
with Rat.floor so that it evaluates by kernel reduction). -/
def roundHalfEven (x : ℚ) : ℤ :=
  if x - x.floor < 1/2 then x.floor
  else if 1/2 < x - x.floor then x.floor + 1
  else if x.floor % 2 = 0 then x.floor else x.floor + 1

/-- Ten to a natural power, as a rational. -/
def pow10 : ℕ → ℚ
  | 0 => 1
  | n + 1 => 10 * pow10 n

/-- Python round(x, n): round-half-to-even at n decimal digits. -/
def pyRound (x : ℚ) (n : ℕ) : ℚ :=
  (roundHalfEven (x * pow10 n) : ℚ) / pow10 n

/-- check_position_change from the source: 10 percent tolerance around
the expected post-fill position for the given side. -/
def check_position_change (old_pos new_pos : ℚ) (side : String)
    (trade_size : ℚ) : Bool :=
  let tolerance := trade_size * (1/10)
  let expected := if side == "long" then old_pos + trade_size
                  else old_pos - trade_size
  |new_pos - expected| < tolerance

/-- The open-orders parsing of the source: a list is used as is, any
dict shape leaves the list empty. -/
def parseOpenOrders : OpenOrdersResp → List Nat
  | .lst l => l
  | _ => []

/-- The user-fills parsing of the source: a list is used as is, any
other shape leaves the list empty. -/
def parseFills : FillsResp → List Nat
  | .lst l => l
  | _ => []

/-- One iteration of the polling loop of
place_limit_order_with_chase_openorders: either continue with an updated
current price (Sum.inl) or return a result (Sum.inr). -/
def chaseAttempt (gw : ChaseGateway) (side : String) (size : ℚ)
    (oid : Nat) (old_pos : ℚ) (current_price : ℤ)
    (attempt max_requotes : ℕ) : Except Exn (Sum ℤ ChaseResult) :=
  match gw.openOrders attempt with
  | .error e => .error e
  | .ok allOpen =>
    if oid ∈ parseOpenOrders allOpen then
      if attempt < max_requotes then
        match gw.allMids attempt with
        | .error e => .error e
        | .ok mids =>
          match gw.modifyResp attempt with
          | .error e => .error e
          | .ok modifyOk =>
            if modifyOk then
              .ok (.inl (match mids with
                         | some m => roundHalfEven m
                         | none => current_price))
            else .ok (.inr ⟨"err", ["error: modify_order failed"], none⟩)
      else .ok (.inr ⟨"ok", ["resting"], some oid⟩)
    else
      match gw.userFills attempt with
      | .error e => .error e
      | .ok fillsResp =>
        if oid ∈ parseFills fillsResp then
          .ok (.inr ⟨"ok", ["filled"], none⟩)
        else
          match gw.newPos attempt with
          | .error e => .error e
          | .ok new_pos =>
            if check_position_change old_pos new_pos side size then
              .ok (.inr ⟨"ok", ["filled-fallback"], none⟩)
            else
              .ok (.inr ⟨"err",
                ["error: OID not open, not filled, no fallback fill"], none⟩)

/-- The polling loop: runs chaseAttempt for the remaining iterations,
also counting the iterations actually started (second component). -/
def chaseLoop (gw : ChaseGateway) (side : String) (size : ℚ)
    (oid : Nat) (old_pos : ℚ) (max_requotes : ℕ) (current_price : ℤ)
    (attempt remaining : ℕ) : Except Exn (Option ChaseResult) × ℕ :=
  match remaining with
  | 0 => (.ok none, 0)
  | r + 1 =>
    match chaseAttempt gw side size oid old_pos current_price attempt
        max_requotes with
    | .error e => (.error e, 1)
    | .ok (.inr res) => (.ok (some res), 1)
    | .ok (.inl p) =>
      let rest := chaseLoop gw side size oid old_pos max_requotes p
        (attempt + 1) r
      (rest.1, rest.2 + 1)

/-- place_limit_order_with_chase_openorders: place the order, parse the
acknowledgement, run the polling loop over range(max_requotes + 1), and
fall back to a final position check when the loop falls through. -/
def place_limit_order_with_chase_openorders (gw : ChaseGateway)
    (side : String) (size : ℚ) (initial_price : ℤ) (reduce_only : Bool)
    (max_requotes : ℕ) : Except Exn ChaseResult :=
  match gw.oldPos with
  | .error e => .error e
  | .ok old_pos =>
    match gw.placeResp with
    | .error e => .error e
    | .ok resp =>
      if resp.isErr then
        .ok ⟨"err", ["error: initial order placement failed"], none⟩
      else
        match resp.statuses with
        | [] => .ok ⟨"err", ["error: no statuses in response"], none⟩
        | first_status :: _ =>
          if first_status.hasError then
            .ok ⟨"err", ["error: order placement returned error"], none⟩
          else if first_status.hasFilled then
            .ok ⟨"ok", ["filled-immediate"], none⟩
          else
            match first_status.resting with
            | none => .ok ⟨"err", ["error: unknown immediate status"], none⟩
            | some oid =>
              match (chaseLoop gw side size oid old_pos max_requotes
                  initial_price 0 (max_requotes + 1)).1 with
              | .error e => .error e
              | .ok (some r) => .ok r
              | .ok none =>
                match gw.finalPos with
                | .error e => .error e
                | .ok new_pos =>
                  if check_position_change old_pos new_pos side size then
                    .ok ⟨"ok", ["filled-final-fallback"], none⟩
                  else
                    .ok ⟨"err",
                      ["error: chase loop ended, no fill detected"], none⟩

/-- Bool test for the pattern "error" in s on character lists:
does the list start with the pattern. -/
def charsBeginWith : List Char → List Char → Bool
  | [], _ => true
  | _ :: _, [] => false
  | p :: ps, c :: cs => p == c && charsBeginWith ps cs

/-- Does the character list contain the pattern as a contiguous run. -/
def charsContain (pat : List Char) : List Char → Bool
  | [] => charsBeginWith pat []
  | c :: cs => charsBeginWith pat (c :: cs) || charsContain pat cs

/-- Python substring test: pat in s. -/
def strContains (s pat : String) : Bool :=
  charsContain pat.toList s.toList

/-- The two failure tests of execute_pending_signals on a chase result
(lines 406 to 413 and 450 to 457 of the source): status err, or some
status string containing the substring "error". -/
def chaseResultFailed (r : ChaseResult) : Bool :=
  r.status == "err" || r.statuses.any (fun s => strContains s "error")

/-- One row of the trade_signals table. -/
structure Signal where
  id : ℤ
  timestamp : String
  action : String
  symbol : String
  side : String
  price : ℚ
  leverage : ℤ
  executed : ℕ
deriving DecidableEq, Repr

/-- Insertion step for sorting rows by ascending id (ORDER BY id ASC). -/
def insertById (s : Signal) : List Signal → List Signal
  | [] => [s]
  | t :: ts => if s.id ≤ t.id then s :: t :: ts else t :: insertById s ts

/-- Sort rows by ascending id. -/
def sortById : List Signal → List Signal
  | [] => []
  | s :: ss => insertById s (sortById ss)

/-- Row conversion done by get_unexecuted_signals: a falsy stored
leverage becomes 1 (int(row) if row else 1). -/
def rowToResult (s : Signal) : Signal :=
  { s with leverage := if s.leverage == 0 then 1 else s.leverage }

/-- get_unexecuted_signals: SELECT the rows WHERE executed = 0
ORDER BY id ASC, converting each row. -/
def get_unexecuted_signals (store : List Signal) : List Signal :=
  (sortById (store.filter (fun s => s.executed == 0))).map rowToResult

/-- mark_signal_executed: UPDATE trade_signals SET executed = 1
WHERE id = signal_id. -/
def mark_signal_executed (store : List Signal) (signal_id : ℤ) :
    List Signal :=
  store.map (fun s => if s.id == signal_id then { s with executed := 1 }
                      else s)

/-- mark_signal_failed: UPDATE trade_signals SET executed = 2
WHERE id = signal_id. -/
def mark_signal_failed (store : List Signal) (signal_id : ℤ) :
    List Signal :=
  store.map (fun s => if s.id == signal_id then { s with executed := 2 }
                      else s)

/-- One entry of assetPositions in the user state. -/
structure PositionEntry where
  coin : String
  szi : ℚ
deriving DecidableEq, Repr

/-- The user state read from the gateway: withdrawable margin (after the
float conversion) and the asset positions. -/
structure UserState where
  withdrawable : ℚ
  positions : List PositionEntry
deriving DecidableEq, Repr

/-- The BTC position lookup of the close handler: the szi of the first
position whose coin is BTC, else 0.0. -/
def btcPositionSize (us : UserState) : ℚ :=
  match us.positions.find? (fun p => p.coin == "BTC") with
  | some p => p.szi
  | none => 0

/-- The fixed safety buffer of the open handler. -/
def BUFFER_FACTOR : ℚ := 98 / 100

/-- Trade size of the open handler: withdrawable * leverage / mid, times
the buffer, rounded with Python round at sz_decimals digits. -/
def openTradeSize (withdrawable : ℚ) (leverage : ℤ) (mid : ℚ)
    (sz_decimals : ℕ) : ℚ :=
  pyRound (withdrawable * leverage / mid * BUFFER_FACTOR) sz_decimals

/-- The close handler's side flip: "short" if side == "long" else
"long" (computed from the signal's side field). -/
def oppositeSide (side : String) : String :=
  if side == "long" then "short" else "long"

/-- An order placement requested from the chase function: the arguments
the engine passes to place_limit_order_with_chase_openorders. -/
structure OrderReq where
  side : String
  size : ℚ
  price : ℤ
  reduce_only : Bool
deriving DecidableEq, Repr

/-- Gateway behaviour visible while the engine processes one signal. -/
structure SigEnv where
  setLeverage : Except Exn Bool
  userState : Except Exn UserState
  allMids : Except Exn (Option ℚ)
  chaseGw : ChaseGateway

/-- Gateway behaviour for one engine pass: the size-decimals lookup and
a per-signal-id environment. -/
structure EngineEnv where
  szDecimals : Except Exn ℕ
  sigEnv : ℤ → SigEnv

/-- Outcome of (part of) an engine pass: the signal table as left in the
database, the exception that escaped the pass if any, and the trace of
order placements requested from the chase function. -/
structure EngineRun where
  store : List Signal
  exn : Option Exn
  orders : List OrderReq
deriving DecidableEq, Repr

/-- The body of the per-signal loop of execute_pending_signals: the open
handler and the close handler, dispatched on the action field. An
unrecognized action leaves the signal untouched. -/
def processOne (env : EngineEnv) (sz_decimals : ℕ) (sig : Signal)
    (store : List Signal) : EngineRun :=
  let e := env.sigEnv sig.id
  if sig.action == "open" then
    match e.setLeverage with
    | .error ex => ⟨store, some ex, []⟩
    | .ok _ =>
      match e.userState with
      | .error ex => ⟨store, some ex, []⟩
      | .ok us =>
        match e.allMids with
        | .error ex => ⟨store, some ex, []⟩
        | .ok none => ⟨mark_signal_failed store sig.id, none, []⟩
        | .ok (some btc_mid) =>
          let trade_size :=
            openTradeSize us.withdrawable sig.leverage btc_mid sz_decimals
          if trade_size ≤ 0 then
            ⟨mark_signal_failed store sig.id, none, []⟩
          else
            let rounded_price := roundHalfEven btc_mid
            let req : OrderReq := ⟨sig.side, trade_size, rounded_price, false⟩
            match place_limit_order_with_chase_openorders e.chaseGw sig.side
                trade_size rounded_price false 5 with
            | .error ex => ⟨store, some ex, [req]⟩
            | .ok r =>
              if chaseResultFailed r then
                ⟨mark_signal_failed store sig.id, none, [req]⟩
              else
                ⟨mark_signal_executed store sig.id, none, [req]⟩
  else if sig.action == "close" then
    match e.userState with
    | .error ex => ⟨store, some ex, []⟩
    | .ok us =>
      let position_size := btcPositionSize us
      if position_size == 0 then
        ⟨mark_signal_executed store sig.id, none, []⟩
      else
        let close_size := pyRound |position_size| sz_decimals
        match e.allMids with
        | .error ex => ⟨store, some ex, []⟩
        | .ok none => ⟨mark_signal_failed store sig.id, none, []⟩
        | .ok (some btc_mid) =>
          let rounded_price := roundHalfEven btc_mid
          let req : OrderReq :=
            ⟨oppositeSide sig.side, close_size, rounded_price, true⟩
          match place_limit_order_with_chase_openorders e.chaseGw
              (oppositeSide sig.side) close_size rounded_price true 5 with
          | .error ex => ⟨store, some ex, [req]⟩
          | .ok r =>
            if chaseResultFailed r then
              ⟨mark_signal_failed store sig.id, none, [req]⟩
            else
              ⟨mark_signal_executed store sig.id, none, [req]⟩
  else ⟨store, none, []⟩

/-- The per-signal loop of execute_pending_signals: processes the
fetched signals in order; an exception while processing one signal
aborts the remainder of the loop (the source has no try/except). -/
def processSignals (env : EngineEnv) (sz_decimals : ℕ) :
    List Signal → List Signal → EngineRun
  | [], store => ⟨store, none, []⟩
  | sig :: rest, store =>
    let r1 := processOne env sz_decimals sig store
    match r1.exn with
    | some ex => ⟨r1.store, some ex, r1.orders⟩
    | none =>
      let r2 := processSignals env sz_decimals rest r1.store
      ⟨r2.store, r2.exn, r1.orders ++ r2.orders⟩

/-- execute_pending_signals: fetch the size decimals and the pending
signals, return early when there are none, else run the loop. -/
def execute_pending_signals (env : EngineEnv) (store : List Signal) :
    EngineRun :=
  match env.szDecimals with
  | .error ex => ⟨store, some ex, []⟩
  | .ok szd =>
    let signals := get_unexecuted_signals store
    if signals.isEmpty then ⟨store, none, []⟩
    else processSignals env szd signals store

/-- The Batteries floor on rationals agrees with the Mathlib floor. -/
lemma ratFloor_eq_intFloor (q : ℚ) : q.floor = ⌊q⌋ := by
  rw [Rat.floor_def' q, Rat.floor_def]

/-- pow10 agrees with the monoid power. -/
lemma pow10_eq (n : ℕ) : pow10 n = (10 : ℚ) ^ n := by
  induction n with
  | zero => rfl
  | succ k ih => rw [pow10, ih, pow_succ]; ring

/-- pow10 is positive. -/
lemma pow10_pos (n : ℕ) : 0 < pow10 n := by
  rw [pow10_eq]; positivity

/-- Round-half-to-even lands within half a unit of its argument. -/
lemma roundHalfEven_sub_le (x : ℚ) : |(roundHalfEven x : ℚ) - x| ≤ 1/2 := by
  have hfl : (⌊x⌋ : ℚ) ≤ x := Int.floor_le x
  have hfu : x < ⌊x⌋ + 1 := Int.lt_floor_add_one x
  unfold roundHalfEven
  rw [ratFloor_eq_intFloor]
  split
  case isTrue h => rw [abs_le]; constructor <;> linarith
  case isFalse h =>
    split
    case isTrue h2 => push_cast; rw [abs_le]; constructor <;> linarith
    case isFalse h2 =>
      split
      case isTrue h3 => rw [abs_le]; constructor <;> linarith
      case isFalse h3 => push_cast; rw [abs_le]; constructor <;> linarith

/-- Python round at n digits lands within half of the last kept digit. -/
lemma pyRound_sub_le (x : ℚ) (n : ℕ) :
    |pyRound x n - x| ≤ 1 / (2 * 10 ^ n) := by
  have hp : (0:ℚ) < 10 ^ n := by positivity
  have h := roundHalfEven_sub_le (x * 10 ^ n)
  have key : pyRound x n - x =
      ((roundHalfEven (x * 10 ^ n) : ℚ) - x * 10 ^ n) / 10 ^ n := by
    unfold pyRound
    rw [pow10_eq]
    field_simp
    ring
  rw [key, abs_div, abs_of_pos hp]
  calc |(roundHalfEven (x * 10 ^ n) : ℚ) - x * 10 ^ n| / 10 ^ n
      ≤ (1/2) / 10 ^ n := div_le_div_of_nonneg_right h hp.le
    _ = 1 / (2 * 10 ^ n) := by rw [div_div]

/-- Claim C4, counterexample: with withdrawable margin 19, leverage 1,
mid price 980 and two size decimals the computed exact size is 0.019 and
Python round takes it up to 0.02, strictly above
withdrawable * leverage / mid * 0.98, so the open-handler rounding is
not a round-down and can round up past the buffered margin bound. -/
theorem open_trade_size_rounds_up_example :
    openTradeSize 19 1 980 2 = 1/50 ∧
    (19 : ℚ) * ((1 : ℤ) : ℚ) / 980 * BUFFER_FACTOR < openTradeSize 19 1 980 2 := by
  constructor <;> decide

/-- Claim C4, amended: the open handler rounds
withdrawable * leverage / mid * 0.98 to the nearest representable size
at the instrument size-decimal precision (Python round, half-to-even),
so the placed size differs from the exact buffered size by at most half
of one size unit in either direction; it is not a round-down and may
exceed the exact value by up to half a unit. -/
theorem open_trade_size_within_half_unit (w : ℚ) (l : ℤ) (m : ℚ) (d : ℕ) :
    |openTradeSize w l m d - w * l / m * BUFFER_FACTOR| ≤ 1 / (2 * 10 ^ d) := by
  unfold openTradeSize
  exact pyRound_sub_le _ d

/-- Claim C3: the engine only fetches signals with executed = 0, so a
pass over a store whose signals are all terminal (status 1 or 2) leaves
every signal status unchanged; a terminal signal is never revisited. -/
theorem terminal_store_is_noop (env : EngineEnv) (store : List Signal)
    (h : ∀ s ∈ store, s.executed ≠ 0) :
    (execute_pending_signals env store).store = store := by
  have hfil : store.filter (fun s => s.executed == 0) = [] := by
    rw [List.filter_eq_nil_iff]
    intro a ha
    simpa using h a ha
  unfold execute_pending_signals
  cases henv : env.szDecimals with
  | error e => rfl
  | ok szd => simp [get_unexecuted_signals, hfil, sortById]

/-- A gateway on which the chase function fails at placement; used as a
neutral chase environment where the chase outcome is irrelevant. -/
def trivialChaseGw : ChaseGateway :=
  ⟨.ok 0, .ok ⟨true, []⟩, fun _ => .ok (.lst []), fun _ => .ok none,
   fun _ => .ok true, fun _ => .ok (.lst []), fun _ => .ok 0, .ok 0⟩

/-- Chase gateway of the fill-detection fallback scenario: the resting
order (oid 7) disappears from open_orders, is absent from user_fills,
and the position has moved from 0.0 to 0.0098. -/
def fallbackGw : ChaseGateway :=
  ⟨.ok 0, .ok ⟨false, [⟨false, false, some 7⟩]⟩, fun _ => .ok (.lst []),
   fun _ => .ok (some 100), fun _ => .ok true, fun _ => .ok (.lst []),
   fun _ => .ok (98/10000), .ok (98/10000)⟩

/-- Claim C7: with the order neither resting nor in recent fills, a
position move from 0.0 to 0.0098 against a requested long size of 0.01
passes the 10 percent tolerance check of check_position_change, and the
chase loop terminates with the success status filled-fallback. -/
theorem fallback_accepts_position_move :
    check_position_change 0 (98/10000) "long" (1/100) = true ∧
    place_limit_order_with_chase_openorders fallbackGw "long" (1/100) 100
        false 5 = .ok ⟨"ok", ["filled-fallback"], none⟩ := by
  constructor
  · decide
  · rfl

/-- The exception thrown while handling the first signal in the
counterexample run. -/
def exnBoom : Exn := ⟨"boom"⟩

/-- Per-signal environment whose user-state query raises. -/
def boomSigEnv : SigEnv := ⟨.ok true, .error exnBoom, .ok none, trivialChaseGw⟩

/-- Per-signal environment with a flat account and no mid price. -/
def trivialSigEnv : SigEnv := ⟨.ok true, .ok ⟨0, []⟩, .ok none, trivialChaseGw⟩

/-- Engine environment where processing signal 1 raises and any other
signal sees the neutral environment. -/
def boomEnv : EngineEnv :=
  ⟨.ok 3, fun i => if i == 1 then boomSigEnv else trivialSigEnv⟩

/-- First pending open signal of the counterexample store. -/
def sigOpen1 : Signal :=
  ⟨1, "2024-01-01T00:00:00", "open", "BTC", "long", 50000, 2, 0⟩

/-- Second pending open signal of the counterexample store. -/
def sigOpen2 : Signal :=
  ⟨2, "2024-01-01T01:00:00", "open", "BTC", "long", 50000, 2, 0⟩

/-- A store with two pending signals. -/
def twoPending : List Signal := [sigOpen1, sigOpen2]

/-- Claim C1, counterexample: the per-signal loop has no try/except, so
the exception raised while handling signal 1 escapes
execute_pending_signals (the exn field of the run is set) and signal 2,
although next in the FIFO queue, is left pending and unprocessed in the
same pass. -/
theorem exception_escapes_engine_loop :
    execute_pending_signals boomEnv twoPending =
      ⟨twoPending, some exnBoom, []⟩ ∧
    (execute_pending_signals boomEnv twoPending).store.map Signal.executed
      = [0, 0] := by
  constructor
  · rfl
  · rfl

/-- Claim C1, amended: an exception raised while processing one signal
is not contained: it aborts the engine pass at that signal, so the
subsequent signals of the batch are not processed at all (the run ends
with the store and order trace of the failing signal alone). -/
theorem engine_pass_stops_at_first_exception (env : EngineEnv)
    (szd : ℕ) (sig : Signal) (rest store : List Signal) (ex : Exn)
    (h : (processOne env szd sig store).exn = some ex) :
    processSignals env szd (sig :: rest) store =
      ⟨(processOne env szd sig store).store, some ex,
       (processOne env szd sig store).orders⟩ := by
  simp only [processSignals, h]

/-- Witness for the amended claim C1 at the counterexample input. -/
theorem engine_pass_stops_at_first_exception_witness :
    processSignals boomEnv 3 [sigOpen1, sigOpen2] twoPending =
      ⟨(processOne boomEnv 3 sigOpen1 twoPending).store, some exnBoom,
       (processOne boomEnv 3 sigOpen1 twoPending).orders⟩ :=
  engine_pass_stops_at_first_exception boomEnv 3 sigOpen1 [sigOpen2]
    twoPending exnBoom rfl

/-- Claim C6: when the close handler reads a zero position, the signal
is marked executed (status 1) and the handler returns without invoking
the chase function, so no order placement is requested at all. -/
theorem flat_close_marks_executed (env : EngineEnv) (szd : ℕ)
    (sig : Signal) (store : List Signal) (us : UserState)
    (hact : sig.action = "close")
    (hus : (env.sigEnv sig.id).userState = .ok us)
    (hpos : btcPositionSize us = 0) :
    processOne env szd sig store =
      ⟨mark_signal_executed store sig.id, none, []⟩ := by
  simp [processOne, hact, hus, hpos]

/-- A signal closing a position on a flat account, for the C6 witness. -/
def sigCloseFlat : Signal :=
  ⟨3, "2024-01-02T00:00:00", "close", "BTC", "long", 50000, 1, 0⟩

/-- Engine environment where every signal sees the neutral per-signal
environment (flat account). -/
def trivEnv : EngineEnv := ⟨.ok 3, fun _ => trivialSigEnv⟩

/-- Witness for claim C6 at a concrete flat-account close. -/
theorem flat_close_marks_executed_witness :
    processOne trivEnv 3 sigCloseFlat twoPending =
      ⟨mark_signal_executed twoPending 3, none, []⟩ :=
  flat_close_marks_executed trivEnv 3 sigCloseFlat twoPending ⟨0, []⟩
    rfl rfl rfl

/-- Claim C5, amended: for a close signal against a nonzero live
position, the order submitted has size equal to the absolute position
size rounded at the instrument precision, reduce-only true, and side
equal to the opposite of the SIGNAL side field (the source derives the
close side from the signal, not from the sign of the live position). -/
theorem close_order_request_fields (env : EngineEnv) (szd : ℕ)
    (sig : Signal) (store : List Signal) (us : UserState) (m : ℚ)
    (hact : sig.action = "close")
    (hus : (env.sigEnv sig.id).userState = .ok us)
    (hpos : ¬ btcPositionSize us = 0)
    (hmid : (env.sigEnv sig.id).allMids = .ok (some m)) :
    (processOne env szd sig store).orders =
      [⟨oppositeSide sig.side, pyRound |btcPositionSize us| szd,
        roundHalfEven m, true⟩] := by
  have hposb : (btcPositionSize us == 0) = false := by
    rw [beq_eq_false_iff_ne]
    exact hpos
  simp [processOne, hact, hus, hposb, hmid]
  split
  · rfl
  · split <;> rfl

/-- User state holding a long BTC position of +0.5. -/
def longPosUser : UserState := ⟨0, [⟨"BTC", 1/2⟩]⟩

/-- Per-signal environment with the long position and a mid price. -/
def closeSigEnv : SigEnv :=
  ⟨.ok true, .ok longPosUser, .ok (some 100), trivialChaseGw⟩

/-- Engine environment for the close-side counterexample. -/
def closeEnv : EngineEnv := ⟨.ok 2, fun _ => closeSigEnv⟩

/-- A close signal whose side field says short while the live position
is long. -/
def sigCloseShort : Signal :=
  ⟨4, "2024-01-03T00:00:00", "close", "BTC", "short", 100, 1, 0⟩

/-- Witness for the amended claim C5 at the concrete close run. -/
theorem close_order_request_fields_witness :
    (processOne closeEnv 2 sigCloseShort []).orders =
      [⟨oppositeSide sigCloseShort.side,
        pyRound |btcPositionSize longPosUser| 2, roundHalfEven 100, true⟩] :=
  close_order_request_fields closeEnv 2 sigCloseShort [] longPosUser 100
    rfl rfl (by decide) rfl

/-- Claim C5, counterexample: the live position is long (+0.5), so the
claimed rule (side opposite to the POSITION side) demands a short
sell-side close order; the handler instead submits side long, because
the source line 441 flips the SIGNAL side field (here short), placing a
buy against an already-long position. Size and reduce-only still match
the claim. -/
theorem close_side_follows_signal_not_position :
    0 < btcPositionSize longPosUser ∧
    (processOne closeEnv 2 sigCloseShort []).orders =
      [⟨"long", 1/2, 100, true⟩] := by
  constructor
  · decide
  · rfl

/-- The statuses lists a polling-loop iteration can return. -/
def attemptStatusLists : List (List String) :=
  [["error: modify_order failed"],
   ["resting"],
   ["filled"],
   ["filled-fallback"],
   ["error: OID not open, not filled, no fallback fill"]]

/-- The statuses lists returned before the polling loop starts. -/
def earlyStatusLists : List (List String) :=
  [["error: initial order placement failed"],
   ["error: no statuses in response"],
   ["error: order placement returned error"],
   ["filled-immediate"],
   ["error: unknown immediate status"]]

/-- Every statuses list the chase function can return. -/
def terminalStatusLists : List (List String) :=
  earlyStatusLists ++ attemptStatusLists ++
  [["filled-final-fallback"],
   ["error: chase loop ended, no fill detected"]]

/-- Invariant of the results produced inside the polling loop: the
statuses list is one of the loop lists, and the top-level status is err
exactly when some status string contains the substring "error". -/
def ChaseInv (r : ChaseResult) : Prop :=
  r.statuses ∈ attemptStatusLists ∧
  (r.status = "err" ↔ r.statuses.any (fun s => strContains s "error") = true)

/-- Constructor form of the loop invariant, keeping the decidable parts
free of the oid field. -/
lemma chaseInv_mk {st : String} {ls : List String} {o : Option Nat}
    (h1 : ls ∈ attemptStatusLists)
    (h2 : st = "err" ↔ ls.any (fun s => strContains s "error") = true) :
    ChaseInv ⟨st, ls, o⟩ := ⟨h1, h2⟩

/-- Any result returned by a polling-loop iteration satisfies the loop
invariant. -/
lemma chaseAttempt_inr {gw : ChaseGateway} {side : String} {size : ℚ}
    {oid : ℕ} {old_pos : ℚ} {cp : ℤ} {attempt mr : ℕ} {r : ChaseResult}
    (h : chaseAttempt gw side size oid old_pos cp attempt mr =
        .ok (.inr r)) : ChaseInv r := by
  unfold chaseAttempt at h
  repeat' split at h
  all_goals first
    | exact Except.noConfusion h
    | (injection h with h1; first
        | exact Sum.noConfusion h1
        | (injection h1 with h2; subst h2;
           exact chaseInv_mk (by decide) (by decide)))

/-- A continue step only happens while the re-quote budget remains. -/
lemma chaseAttempt_inl_lt {gw : ChaseGateway} {side : String} {size : ℚ}
    {oid : ℕ} {old_pos : ℚ} {cp : ℤ} {attempt mr : ℕ} {p : ℤ}
    (h : chaseAttempt gw side size oid old_pos cp attempt mr =
        .ok (.inl p)) : attempt < mr := by
  unfold chaseAttempt at h
  repeat' split at h
  all_goals first
    | assumption
    | exact Except.noConfusion h
    | (injection h with h1; exact Sum.noConfusion h1)

/-- Any result the polling loop hands back satisfies the invariant. -/
lemma chaseLoop_some {gw : ChaseGateway} {side : String} {size : ℚ}
    {oid : ℕ} {old_pos : ℚ} {mr : ℕ} (remaining : ℕ) :
    ∀ {attempt : ℕ} {cp : ℤ} {r : ChaseResult},
      (chaseLoop gw side size oid old_pos mr cp attempt remaining).1 =
        .ok (some r) → ChaseInv r := by
  induction remaining with
  | zero =>
    intro attempt cp r h
    exact Option.noConfusion (Except.ok.inj h)
  | succ n ih =>
    intro attempt cp r h
    rw [chaseLoop] at h
    cases hA : chaseAttempt gw side size oid old_pos cp attempt mr with
    | error e => rw [hA] at h; exact Except.noConfusion h
    | ok v =>
      cases v with
      | inr res =>
        rw [hA] at h
        cases Option.some.inj (Except.ok.inj h)
        exact chaseAttempt_inr hA
      | inl p =>
        rw [hA] at h
        exact ih h

/-- The polling loop, entered with at least one remaining iteration and
a budget consistent with range(max_requotes + 1), never falls through:
its first component is never ok none. -/
lemma chaseLoop_ne_none {gw : ChaseGateway} {side : String} {size : ℚ}
    {oid : ℕ} {old_pos : ℚ} {mr : ℕ} (remaining : ℕ) :
    ∀ (attempt : ℕ) (cp : ℤ), attempt + remaining = mr + 1 →
      1 ≤ remaining →
      (chaseLoop gw side size oid old_pos mr cp attempt remaining).1 ≠
        .ok none := by
  induction remaining with
  | zero => intro attempt cp h h1; omega
  | succ n ih =>
    intro attempt cp hsum _
    rw [chaseLoop]
    cases hA : chaseAttempt gw side size oid old_pos cp attempt mr with
    | error e => simp
    | ok v =>
      cases v with
      | inr res => simp
      | inl p =>
        have hlt : attempt < mr := chaseAttempt_inl_lt hA
        dsimp only
        exact ih (attempt + 1) p (by omega) (by omega)

/-- The polling loop starts at most as many iterations as its remaining
budget. -/
lemma chaseLoop_count {gw : ChaseGateway} {side : String} {size : ℚ}
    {oid : ℕ} {old_pos : ℚ} {mr : ℕ} (remaining : ℕ) :
    ∀ (attempt : ℕ) (cp : ℤ),
      (chaseLoop gw side size oid old_pos mr cp attempt remaining).2 ≤
        remaining := by
  induction remaining with
  | zero => intro attempt cp; exact Nat.le_refl 0
  | succ n ih =>
    intro attempt cp
    rw [chaseLoop]
    cases chaseAttempt gw side size oid old_pos cp attempt mr with
    | error e => dsimp only; omega
    | ok v =>
      cases v with
      | inr res => dsimp only; omega
      | inl p =>
        dsimp only
        have := ih (attempt + 1) p
        omega

/-- Any value returned (not raised) by the chase function comes either
from inside the polling loop or from one of the pre-loop returns, and in
both cases the err status agrees with the presence of an "error"
substring in the statuses. The post-loop returns never occur. -/
lemma chase_ok_strong {gw : ChaseGateway} {side : String} {size : ℚ}
    {ip : ℤ} {ro : Bool} {mr : ℕ} {r : ChaseResult}
    (h : place_limit_order_with_chase_openorders gw side size ip ro mr =
        .ok r) :
    (r.statuses ∈ attemptStatusLists ∨ r.statuses ∈ earlyStatusLists) ∧
    (r.status = "err" ↔
      r.statuses.any (fun s => strContains s "error") = true) := by
  unfold place_limit_order_with_chase_openorders at h
  cases hold : gw.oldPos with
  | error e => rw [hold] at h; exact Except.noConfusion h
  | ok old_pos =>
  rw [hold] at h
  cases hpl : gw.placeResp with
  | error e => rw [hpl] at h; exact Except.noConfusion h
  | ok resp =>
  rw [hpl] at h
  dsimp only at h
  by_cases hie : resp.isErr = true
  · rw [if_pos hie] at h
    cases Except.ok.inj h
    exact ⟨Or.inr (by decide), by decide⟩
  · rw [if_neg hie] at h
    cases hst : resp.statuses with
    | nil =>
      rw [hst] at h
      cases Except.ok.inj h
      exact ⟨Or.inr (by decide), by decide⟩
    | cons fs tl =>
    rw [hst] at h
    dsimp only at h
    by_cases he1 : fs.hasError = true
    · rw [if_pos he1] at h
      cases Except.ok.inj h
      exact ⟨Or.inr (by decide), by decide⟩
    · rw [if_neg he1] at h
      by_cases he2 : fs.hasFilled = true
      · rw [if_pos he2] at h
        cases Except.ok.inj h
        exact ⟨Or.inr (by decide), by decide⟩
      · rw [if_neg he2] at h
        cases hrest : fs.resting with
        | none =>
          rw [hrest] at h
          cases Except.ok.inj h
          exact ⟨Or.inr (by decide), by decide⟩
        | some oid =>
        rw [hrest] at h
        dsimp only at h
        cases hloop : (chaseLoop gw side size oid old_pos mr ip 0
            (mr + 1)).1 with
        | error e => rw [hloop] at h; exact Except.noConfusion h
        | ok o =>
          cases o with
          | some r0 =>
            rw [hloop] at h
            cases Except.ok.inj h
            obtain ⟨hm, hiff⟩ := chaseLoop_some (mr + 1) hloop
            exact ⟨Or.inl hm, hiff⟩
          | none =>
            exact absurd hloop
              (chaseLoop_ne_none (mr + 1) 0 ip (by omega) (by omega))

/-- Claim C8: the polling phase of the chase function starts at most
max_requotes + 1 iterations, and every value the function returns is one
of its fixed terminal outcomes; there is no unbounded retry. -/
theorem chase_loop_iteration_bound (gw : ChaseGateway) (side : String)
    (size : ℚ) (oid : ℕ) (old_pos : ℚ) (ip : ℤ) (ro : Bool) (mr : ℕ) :
    (chaseLoop gw side size oid old_pos mr ip 0 (mr + 1)).2 ≤ mr + 1 ∧
    ∀ r, place_limit_order_with_chase_openorders gw side size ip ro mr =
        .ok r → r.statuses ∈ terminalStatusLists := by
  constructor
  · exact chaseLoop_count (mr + 1) 0 ip
  · intro r h
    obtain ⟨hm, _⟩ := chase_ok_strong h
    have hsub1 : ∀ ls ∈ attemptStatusLists, ls ∈ terminalStatusLists := by
      decide
    have hsub2 : ∀ ls ∈ earlyStatusLists, ls ∈ terminalStatusLists := by
      decide
    cases hm with
    | inl hA => exact hsub1 r.statuses hA
    | inr hE => exact hsub2 r.statuses hE

/-- Witness for claim C8 at the fallback gateway scenario. -/
theorem chase_loop_iteration_bound_witness :
    (chaseLoop fallbackGw "long" (1/100) 7 0 5 100 0 6).2 ≤ 6 ∧
    (ChaseResult.mk "ok" ["filled-fallback"] none).statuses ∈
      terminalStatusLists :=
  ⟨(chase_loop_iteration_bound fallbackGw "long" (1/100) 7 0 100 false 5).1,
   (chase_loop_iteration_bound fallbackGw "long" (1/100) 7 0 100 false 5).2
     ⟨"ok", ["filled-fallback"], none⟩ (by rfl)⟩

/-- Claim C9: for every value returned by the chase function, the
top-level status is err exactly when some string of the statuses list
contains the substring "error"; hence the two failure tests the engine
applies to a chase result (status equal to err, and scanning the
statuses for "error" substrings) always classify the result alike, and
the combined test reduces to the status test alone. -/
theorem err_status_iff_error_substring (gw : ChaseGateway)
    (side : String) (size : ℚ) (ip : ℤ) (ro : Bool) (mr : ℕ)
    (r : ChaseResult)
    (h : place_limit_order_with_chase_openorders gw side size ip ro mr =
        .ok r) :
    (r.status = "err" ↔
      r.statuses.any (fun s => strContains s "error") = true) ∧
    chaseResultFailed r = (r.status == "err") := by
  obtain ⟨_, hiff⟩ := chase_ok_strong h
  refine ⟨hiff, ?_⟩
  unfold chaseResultFailed
  by_cases hs : r.status = "err"
  · have hb : (r.status == "err") = true := by
      rw [beq_iff_eq]; exact hs
    rw [hb, Bool.true_or]
  · have hb : (r.status == "err") = false := by
      rw [beq_eq_false_iff_ne]; exact hs
    have hany : r.statuses.any (fun s => strContains s "error") = false := by
      cases hany : r.statuses.any (fun s => strContains s "error") with
      | true => exact absurd (hiff.mpr hany) hs
      | false => rfl
    rw [hb, hany, Bool.false_or]

/-- Witness for claim C9 at the fallback gateway scenario. -/
theorem err_status_iff_error_substring_witness :
    ((ChaseResult.mk "ok" ["filled-fallback"] none).status = "err" ↔
      (ChaseResult.mk "ok" ["filled-fallback"] none).statuses.any
        (fun s => strContains s "error") = true) ∧
    chaseResultFailed ⟨"ok", ["filled-fallback"], none⟩ =
      ((ChaseResult.mk "ok" ["filled-fallback"] none).status == "err") :=
  err_status_iff_error_substring fallbackGw "long" (1/100) 100 false 5
    ⟨"ok", ["filled-fallback"], none⟩ (by rfl)

/-- Claim C10: entered with the budget range(max_requotes + 1), the
polling loop never falls through (its loop value is never ok none),
because the final iteration returns on every branch; consequently the
code after the loop is dead and the chase function never returns the
filled-final-fallback status nor the final no-fill error status. -/
theorem chase_post_loop_unreachable (gw : ChaseGateway) (side : String)
    (size : ℚ) (oid : ℕ) (old_pos : ℚ) (ip : ℤ) (ro : Bool) (mr : ℕ) :
    (chaseLoop gw side size oid old_pos mr ip 0 (mr + 1)).1 ≠ .ok none ∧
    ∀ r, place_limit_order_with_chase_openorders gw side size ip ro mr =
        .ok r →
      r.statuses ≠ ["filled-final-fallback"] ∧
      r.statuses ≠ ["error: chase loop ended, no fill detected"] := by
  constructor
  · exact chaseLoop_ne_none (mr + 1) 0 ip (by omega) (by omega)
  · intro r h
    obtain ⟨hm, _⟩ := chase_ok_strong h
    have hnot1 : ∀ ls ∈ attemptStatusLists,
        ls ≠ ["filled-final-fallback"] ∧
        ls ≠ ["error: chase loop ended, no fill detected"] := by decide
    have hnot2 : ∀ ls ∈ earlyStatusLists,
        ls ≠ ["filled-final-fallback"] ∧
        ls ≠ ["error: chase loop ended, no fill detected"] := by decide
    cases hm with
    | inl hA => exact hnot1 r.statuses hA
    | inr hE => exact hnot2 r.statuses hE

/-- Witness for claim C10 at the fallback gateway scenario. -/
theorem chase_post_loop_unreachable_witness :
    (chaseLoop fallbackGw "long" (1/100) 7 0 5 100 0 6).1 ≠ .ok none ∧
    (ChaseResult.mk "ok" ["filled-fallback"] none).statuses ≠
      ["filled-final-fallback"] ∧
    (ChaseResult.mk "ok" ["filled-fallback"] none).statuses ≠
      ["error: chase loop ended, no fill detected"] :=
  ⟨(chase_post_loop_unreachable fallbackGw "long" (1/100) 7 0 100 false 5).1,
   (chase_post_loop_unreachable fallbackGw "long" (1/100) 7 0 100 false 5).2
     ⟨"ok", ["filled-fallback"], none⟩ (by rfl)⟩

/-- While the order keeps showing in open_orders and every modify
succeeds, the polling loop runs its whole budget down and hands back the
ok resting result carrying the oid. -/
lemma chaseLoop_all_resting (side : String) (size : ℚ) (old_pos : ℚ)
    {gw : ChaseGateway} {oid : ℕ} {mr : ℕ}
    (hOpen : ∀ t, t ≤ mr → ∃ o, gw.openOrders t = .ok o ∧
      oid ∈ parseOpenOrders o)
    (hMids : ∀ t, t < mr → ∃ mo, gw.allMids t = .ok mo)
    (hMod : ∀ t, t < mr → gw.modifyResp t = .ok true) :
    ∀ (remaining attempt : ℕ) (cp : ℤ), attempt + remaining = mr + 1 →
      1 ≤ remaining →
      (chaseLoop gw side size oid old_pos mr cp attempt remaining).1 =
        .ok (some ⟨"ok", ["resting"], some oid⟩) := by
  intro remaining
  induction remaining with
  | zero => intro attempt cp h h1; omega
  | succ n ih =>
    intro attempt cp hsum _
    have hat : attempt ≤ mr := by omega
    obtain ⟨o, ho, hmem⟩ := hOpen attempt hat
    rw [chaseLoop]
    by_cases hlt : attempt < mr
    · obtain ⟨mo, hmo⟩ := hMids attempt hlt
      have hmod := hMod attempt hlt
      have hA : chaseAttempt gw side size oid old_pos cp attempt mr =
          .ok (.inl (match mo with
                     | some m => roundHalfEven m
                     | none => cp)) := by
        unfold chaseAttempt
        simp only [ho, hmo, hmod]
        simp [hmem, hlt]
        cases mo <;> rfl
      rw [hA]
      dsimp only
      exact ih (attempt + 1) _ (by omega) (by omega)
    · have hA : chaseAttempt gw side size oid old_pos cp attempt mr =
          .ok (.inr ⟨"ok", ["resting"], some oid⟩) := by
        unfold chaseAttempt
        simp only [ho]
        simp [hmem, hlt]
      rw [hA]

/-- The chase function under a placement acknowledged as resting and a
gateway that keeps the order on the book: the budget is exhausted while
resting and the function returns the ok resting result. -/
lemma chase_resting (side : String) (size : ℚ) (ip : ℤ) (ro : Bool)
    (mr : ℕ) {gw : ChaseGateway} {oid : ℕ} {old_pos : ℚ}
    {resp : PlaceAck} {fs : FirstStatus} {tl : List FirstStatus}
    (hold : gw.oldPos = .ok old_pos)
    (hpl : gw.placeResp = .ok resp)
    (hie : resp.isErr = false)
    (hst : resp.statuses = fs :: tl)
    (he : fs.hasError = false)
    (hf : fs.hasFilled = false)
    (hr : fs.resting = some oid)
    (hOpen : ∀ t, t ≤ mr → ∃ o, gw.openOrders t = .ok o ∧
      oid ∈ parseOpenOrders o)
    (hMids : ∀ t, t < mr → ∃ mo, gw.allMids t = .ok mo)
    (hMod : ∀ t, t < mr → gw.modifyResp t = .ok true) :
    place_limit_order_with_chase_openorders gw side size ip ro mr =
      .ok ⟨"ok", ["resting"], some oid⟩ := by
  have hloop := chaseLoop_all_resting side size old_pos hOpen hMids hMod
    (mr + 1) 0 ip (by omega) (by omega)
  unfold place_limit_order_with_chase_openorders
  rw [hold, hpl]
  simp [hie, hst, he, hf, hr, hloop]

/-- Claim C2: when the re-quote budget of the chase loop is exhausted
while the order is still resting on the book (the order keeps appearing
in open_orders and every modification succeeds), the chase loop returns
the success-style result (status ok, statuses resting), and the open
handler thereupon marks the signal executed, not failed, preventing
re-submission. -/
theorem requote_exhausted_marks_executed (env : EngineEnv) (szd : ℕ)
    (sig : Signal) (store : List Signal) (us : UserState) (m : ℚ)
    (b : Bool) (resp : PlaceAck) (fs : FirstStatus)
    (tl : List FirstStatus) (oid : ℕ) (old_pos : ℚ)
    (hact : sig.action = "open")
    (hlev : (env.sigEnv sig.id).setLeverage = .ok b)
    (hus : (env.sigEnv sig.id).userState = .ok us)
    (hmid : (env.sigEnv sig.id).allMids = .ok (some m))
    (hsize : ¬ openTradeSize us.withdrawable sig.leverage m szd ≤ 0)
    (hold : (env.sigEnv sig.id).chaseGw.oldPos = .ok old_pos)
    (hpl : (env.sigEnv sig.id).chaseGw.placeResp = .ok resp)
    (hie : resp.isErr = false)
    (hst : resp.statuses = fs :: tl)
    (he : fs.hasError = false)
    (hf : fs.hasFilled = false)
    (hr : fs.resting = some oid)
    (hOpen : ∀ t, t ≤ 5 → ∃ o,
      (env.sigEnv sig.id).chaseGw.openOrders t = .ok o ∧
      oid ∈ parseOpenOrders o)
    (hMids : ∀ t, t < 5 → ∃ mo,
      (env.sigEnv sig.id).chaseGw.allMids t = .ok mo)
    (hMod : ∀ t, t < 5 →
      (env.sigEnv sig.id).chaseGw.modifyResp t = .ok true) :
    place_limit_order_with_chase_openorders (env.sigEnv sig.id).chaseGw
        sig.side (openTradeSize us.withdrawable sig.leverage m szd)
        (roundHalfEven m) false 5 =
      .ok ⟨"ok", ["resting"], some oid⟩ ∧
    processOne env szd sig store =
      ⟨mark_signal_executed store sig.id, none,
       [⟨sig.side, openTradeSize us.withdrawable sig.leverage m szd,
         roundHalfEven m, false⟩]⟩ := by
  have hchase := chase_resting sig.side
    (openTradeSize us.withdrawable sig.leverage m szd) (roundHalfEven m)
    false 5 hold hpl hie hst he hf hr hOpen hMids hMod
  refine ⟨hchase, ?_⟩
  have hcrf : chaseResultFailed ⟨"ok", ["resting"], some oid⟩ = false := rfl
  simp [processOne, hact, hlev, hus, hmid, hsize, hchase, hcrf]

/-- Chase gateway on which the order rests forever: the acknowledgement
is resting with oid 7, open_orders always lists oid 7, and every modify
succeeds. -/
def restingGw : ChaseGateway :=
  ⟨.ok 0, .ok ⟨false, [⟨false, false, some 7⟩]⟩, fun _ => .ok (.lst [7]),
   fun _ => .ok (some 50000), fun _ => .ok true, fun _ => .ok (.lst []),
   fun _ => .ok 0, .ok 0⟩

/-- Per-signal environment of the resting-exhaustion witness: margin
1000, mid 50000. -/
def restingSigEnv : SigEnv :=
  ⟨.ok true, .ok ⟨1000, []⟩, .ok (some 50000), restingGw⟩

/-- Engine environment of the resting-exhaustion witness. -/
def restingEnv : EngineEnv := ⟨.ok 3, fun _ => restingSigEnv⟩

/-- Open signal of the resting-exhaustion witness. -/
def sigOpenW : Signal :=
  ⟨9, "2024-01-04T00:00:00", "open", "BTC", "long", 50000, 5, 0⟩

/-- Witness for claim C2 at the concrete resting run. -/
theorem requote_exhausted_marks_executed_witness :
    place_limit_order_with_chase_openorders restingGw "long"
        (openTradeSize (1000 : ℚ) 5 50000 3) (roundHalfEven 50000)
        false 5 = .ok ⟨"ok", ["resting"], some 7⟩ ∧
    processOne restingEnv 3 sigOpenW [sigOpenW] =
      ⟨mark_signal_executed [sigOpenW] 9, none,
       [⟨"long", openTradeSize (1000 : ℚ) 5 50000 3,
         roundHalfEven 50000, false⟩]⟩ :=
  requote_exhausted_marks_executed restingEnv 3 sigOpenW [sigOpenW]
    ⟨1000, []⟩ 50000 true ⟨false, [⟨false, false, some 7⟩]⟩
    ⟨false, false, some 7⟩ [] 7 0
    rfl rfl rfl rfl (by decide) rfl rfl rfl rfl rfl rfl rfl
    (fun t ht => ⟨.lst [7], rfl, by decide⟩)
    (fun t ht => ⟨some 50000, rfl⟩)
    (fun t ht => rfl)

/-- A store whose signals are all terminal (statuses 1 and 2). -/
def terminalStore : List Signal :=
  [⟨1, "2024-01-01T00:00:00", "open", "BTC", "long", 50000, 2, 1⟩,
   ⟨2, "2024-01-01T01:00:00", "close", "BTC", "long", 50000, 1, 2⟩]

/-- Witness for claim C3 at a concrete all-terminal store. -/
theorem terminal_store_is_noop_witness :
    (execute_pending_signals trivEnv terminalStore).store = terminalStore :=
  terminal_store_is_noop trivEnv terminalStore (by decide)
